import Mathlib

/-!
Shallow embedding of `warmachine/connections/slack.py` (class `SlackWS`).

Python dicts keyed by strings are modelled as association lists
(`List (String × α)`) with python-dict semantics: lookup returns the value
of the first matching key, assignment replaces in place (or appends when the
key is fresh), `del` removes the one entry.  A python `KeyError` surfaces as
`Option`/`none` in the handlers that can raise one.
-/

namespace SlackWS

/-- Python `m[k]` as a total lookup returning `Option`. -/
def getKey (m : List (String × α)) (k : String) : Option α :=
  match m with
  | [] => none
  | (k', v') :: rest => if k' = k then some v' else getKey rest k

/-- Python `m[k] = v`: replace the entry in place, or append when fresh. -/
def setKey (m : List (String × α)) (k : String) (v : α) : List (String × α) :=
  match m with
  | [] => [(k, v)]
  | (k', v') :: rest => if k' = k then (k, v) :: rest else (k', v') :: setKey rest k v

/-- Python `del m[k]` on a key known to be present (dicts have unique keys). -/
def delKey (m : List (String × α)) (k : String) : List (String × α) :=
  match m with
  | [] => []
  | (k', v') :: rest => if k' = k then rest else (k', v') :: delKey rest k

/-- Python `'#' in destination`. -/
def strContainsHash (s : String) : Bool := s.data.contains '#'

/-- Python `destination.startswith('#')`. -/
def strStartsWithHash (s : String) : Bool :=
  match s.data with
  | [] => false
  | c :: _ => c = '#'

/-- Python `destination.replace('#', '')` (removes every occurrence). -/
def stripHash (s : String) : String := ⟨s.data.filter (fun c => c ≠ '#')⟩

/-- Python truthiness of a string: the empty string is falsy. -/
def strFalsy (s : String) : Bool := s.data.isEmpty

/-- A user record, with the dict keys `slack.py` reads.  `nick`, `presence`,
`is_bot` and `deleted` may be absent from the raw payload dict, so they are
`Option`s; `extra` stands for the remaining opaque pass-through attributes. -/
structure UserRecord where
  id : String
  name : String
  nick : Option String
  presence : Option String
  is_bot : Option Bool
  deleted : Option Bool
  extra : List (String × String)
  deriving Repr, DecidableEq

/-- A channel/group record from the bootstrap payload (`id` and `name`). -/
structure ChannelRecord where
  id : String
  name : String
  deriving Repr, DecidableEq

/-- An `ims` record from the bootstrap payload (DM channels carry no name). -/
structure ImRecord where
  id : String
  deriving Repr, DecidableEq

/-- Value stored in `channel_map`: either an IM record or a channel/group. -/
inductive ChanVal where
  | im (i : ImRecord)
  | ch (c : ChannelRecord)
  deriving Repr, DecidableEq

/-- The `self` section of the bootstrap payload (`.get` with defaults). -/
structure SelfInfo where
  id : Option String
  name : Option String
  deriving Repr, DecidableEq

/-- Decoded JSON response of the session-start call (`rtm.start`). -/
structure ConnectInfo where
  ok : Option Bool
  error : Option String
  url : Option String
  selfInfo : Option SelfInfo
  users : List UserRecord
  ims : List ImRecord
  channels : List ChannelRecord
  groups : List ChannelRecord
  deriving Repr, DecidableEq

/-- Connection status constants from `connections/base.py`. -/
inductive Status where
  | initalized
  | connecting
  | connected
  deriving Repr, DecidableEq

/-- The mutable attributes of a `SlackWS` instance that the verified
operations touch.  `ws` records whether a streaming handle is present;
`dm_cache` is the memoization table of `get_dm_id_by_user` (the cached
value is the python return: a channel id, or `None` on backend error). -/
structure SlackState where
  channel_map : List (String × ChanVal)
  channel_name_to_id : List (String × String)
  user_map : List (String × UserRecord)
  user_nick_to_id : List (String × String)
  nick : Option String
  my_id : String
  internal_msgid : Nat
  internal_pingid : Nat
  dm_cache : List (String × Option String)
  host : Option String
  status : Status
  ws : Bool
  deriving Repr, DecidableEq

/-- The state `SlackWS.__init__` builds. -/
def initState : SlackState :=
  { channel_map := []
    channel_name_to_id := []
    user_map := []
    user_nick_to_id := []
    nick := some ""
    my_id := "000"
    internal_msgid := 0
    internal_pingid := 0
    dm_cache := []
    host := none
    status := Status.initalized
    ws := false }

/-- Python truthiness of the parsed bootstrap dict: an empty dict is falsy
(`if not info: return`).  With the structured decoding, the dict is empty
exactly when every section is absent. -/
def infoFalsy (i : ConnectInfo) : Bool :=
  i.ok.isNone && i.error.isNone && i.url.isNone && i.selfInfo.isNone &&
    i.users.isEmpty && i.ims.isEmpty && i.channels.isEmpty && i.groups.isEmpty

/-- Model of `SlackWS.process_connect_info`: seed Session Identity and the four cache
tables from the bootstrap payload.  A missing `self` section is the caught
`KeyError` path (log only). -/
def process_connect_info (s : SlackState) (info : ConnectInfo) : SlackState :=
  if infoFalsy info then s
  else
    let s₁ :=
      match info.selfInfo with
      | none => s
      | some si => { s with my_id := si.id.getD "000", nick := si.name }
    let s₂ := info.users.foldl
      (fun acc u =>
        { acc with
            user_map := setKey acc.user_map u.id u
            user_nick_to_id := setKey acc.user_nick_to_id u.name u.id }) s₁
    let s₃ := info.ims.foldl
      (fun acc i => { acc with channel_map := setKey acc.channel_map i.id (ChanVal.im i) }) s₂
    let s₄ := info.channels.foldl
      (fun acc c =>
        { acc with
            channel_map := setKey acc.channel_map c.id (ChanVal.ch c)
            channel_name_to_id := setKey acc.channel_name_to_id c.name c.id }) s₃
    info.groups.foldl
      (fun acc g =>
        { acc with
            channel_map := setKey acc.channel_map g.id (ChanVal.ch g)
            channel_name_to_id := setKey acc.channel_name_to_id g.name g.id }) s₄

/-- Model of `SlackWS.authenticate`, given the decoded session-start response.
`Except.error` is the raised exception (`'Slack Error: ' + reason`); on the
ok path the payload is processed and the streaming url (`info.get('url')`)
is returned. -/
def authenticate (s : SlackState) (info : ConnectInfo) :
    Except String (Option String × SlackState) :=
  if (info.ok.getD true) = false then
    Except.error ("Slack Error: " ++ info.error.getD "Unknown Error")
  else
    Except.ok (info.url, process_connect_info s info)

/-- Model of `SlackWS.connect`, given the session-start outcome: `none` models a
transport error inside `authenticate` (its exception is caught, logged, and
`connect` returns python `None`); `some info` is a decoded response.  The
python return value `None`/`True` is modelled as `Option Bool`. -/
def connect (s : SlackState) (resp : Option ConnectInfo) : Option Bool × SlackState :=
  match resp with
  | none => (none, s)
  | some info =>
    match authenticate s info with
    | Except.error _ => (none, s)
    | Except.ok (url, s₁) =>
      (some true, { s₁ with host := url, status := Status.connecting, ws := true })

/-- Decoded response of the DM-open call (`im.open`): `ok`, and on success
`channel.id`. -/
structure DmResponse where
  ok : Bool
  channel_id : String
  deriving Repr, DecidableEq

/-- Result of one `get_dm_id_by_user` call: the returned value (python
returns `None` on a backend-reported failure), the memoization table after
the call, and how many backend `im.open` requests the call issued. -/
structure DmResult where
  channel : Option String
  cache : List (String × Option String)
  backendCalls : Nat
  deriving Repr, DecidableEq

/-- Model of `SlackWS.get_dm_id_by_user`.  The body (issue the `im.open` request,
return `None` when the backend reports failure, otherwise `channel.id`) is
from the source.  The surrounding cache is *modelled from the spec*: the
`@memoize` decorator lives in `warmachine/utils/decorators.py`, which is not
part of the sources; per the spec it computes once and caches forever
("the dm id should never change"). -/
def get_dm_id_by_user (backend : String → DmResponse) (cache : List (String × Option String))
    (user_id : String) : DmResult :=
  match getKey cache user_id with
  | some v => { channel := v, cache := cache, backendCalls := 0 }
  | none =>
    let resp := backend user_id
    let result := if resp.ok then some resp.channel_id else none
    { channel := result, cache := setKey cache user_id result, backendCalls := 1 }

/-- The serialized outbound message envelope built by `say` (`id`, fixed
`type:"message"`, `channel`, `text`).  `channel` is an `Option` because the
DM resolver returns python `None` on a backend failure and `say` sends the
envelope anyway. -/
structure OutboundMsg where
  id : Nat
  channel : Option String
  text : String
  deriving Repr, DecidableEq

/-- How one `say` call ended: a transport write of the serialized envelope,
the silent bot/deleted drop, or a python `KeyError` escaping from one of the
dict lookups. -/
inductive SayStep where
  | sent (m : OutboundMsg)
  | droppedBot
  | keyError
  deriving Repr, DecidableEq

/-- Model of `SlackWS.say`, translated branch by branch.  `backend` decides the
`im.open` responses consumed by `get_dm_id_by_user`. -/
def say (backend : String → DmResponse) (s : SlackState) (message destination : String) :
    SayStep × SlackState :=
  if !(strFalsy destination) && strStartsWithHash destination then
    match getKey s.channel_name_to_id (stripHash destination) with
    | none => (SayStep.keyError, s)
    | some chan =>
      let msgid := s.internal_msgid + 1
      (SayStep.sent { id := msgid, channel := some chan, text := message },
       { s with internal_msgid := msgid })
  else
    match getKey s.user_nick_to_id destination with
    | none => (SayStep.keyError, s)
    | some uid =>
      if strContainsHash destination then
        -- both `'#' not in destination and ...` guards short-circuit to
        -- False, so `user_map[_user]` is never even read
        let dr := get_dm_id_by_user backend s.dm_cache uid
        let msgid := s.internal_msgid + 1
        (SayStep.sent { id := msgid, channel := dr.channel, text := message },
         { s with internal_msgid := msgid, dm_cache := dr.cache })
      else
        match getKey s.user_map uid with
        | none => (SayStep.keyError, s)
        | some r =>
          match r.deleted with
          | none => (SayStep.keyError, s)
          | some del =>
            if del then (SayStep.droppedBot, s)
            else
              match r.is_bot with
              | none => (SayStep.keyError, s)
              | some bot =>
                if bot then (SayStep.droppedBot, s)
                else
                  let dr := get_dm_id_by_user backend s.dm_cache uid
                  let msgid := s.internal_msgid + 1
                  (SayStep.sent { id := msgid, channel := dr.channel, text := message },
                   { s with internal_msgid := msgid, dm_cache := dr.cache })

/-- Model of `SlackWS.on_user_change`.  The record is written into `user_map` first;
only then is `old_nick` read back (from the already-updated map).  `none`
models a python `KeyError` escaping the handler. -/
def on_user_change (s : SlackState) (user_info : UserRecord) : Option SlackState :=
  let user_map₁ := setKey s.user_map user_info.id user_info
  let old_nick : Option String :=
    match getKey user_map₁ user_info.id with
    | some r => r.nick
    | none => none
  match old_nick with
  | none => some { s with user_map := user_map₁ }
  | some onk =>
    match user_info.nick with
    | none => none    -- user_info['nick'] raises KeyError
    | some nnk =>
      if onk = nnk then some { s with user_map := user_map₁ }
      else
        match getKey s.user_nick_to_id onk with
        | none => none  -- del raises KeyError
        | some _ =>
          some { s with
                   user_map := user_map₁
                   user_nick_to_id :=
                     setKey (delKey s.user_nick_to_id onk) nnk user_info.id }

/-- Model of `SlackWS.on_presence_change`: a bare `user_map[msg['user']]` access
(`none` models the `KeyError` when the id is unknown) followed by an
in-place update of the `presence` key. -/
def on_presence_change (s : SlackState) (user presence : String) : Option SlackState :=
  match getKey s.user_map user with
  | none => none
  | some r =>
    some { s with user_map := setKey s.user_map user { r with presence := some presence } }

/-- A decoded inbound streaming envelope, restricted to the keys
`SlackWS.read` inspects for routing: `reply_to` (presence is what matters),
`type`, and `subtype`. -/
structure Envelope where
  reply_to : Option Nat
  type : Option String
  subtype : Option String
  deriving Repr, DecidableEq

/-- Where `SlackWS.read` routes a decoded envelope. -/
inductive RouteResult where
  | ackDiscard                     -- reply_to without type: silently dropped
  | malformedDiscard               -- no type: logged as error, dropped
  | normalize                      -- type "message" without subtype
  | dispatched (key : String)      -- an on_{key} handler exists
  | unknownDropped (key : String)  -- no handler: logged at debug, dropped
  deriving Repr, DecidableEq

/-- The composite dispatch key `read` builds: `type`, or `type_subtype`
when a subtype is present. -/
def compositeKey (t : String) (st : Option String) : String :=
  match st with
  | some sub => t ++ "_" ++ sub
  | none => t

/-- The routing case analysis of `SlackWS.read` (lines after a successful
`recv`).  `handlers` is the set of composite keys `k` for which an `on_{k}`
method exists on the class (`hasattr(self, func_name)`). -/
def route (handlers : List String) (m : Envelope) : RouteResult :=
  if m.reply_to.isSome && m.type.isNone then RouteResult.ackDiscard
  else
    match m.type with
    | none => RouteResult.malformedDiscard
    | some t =>
      if t = "message" && m.subtype.isNone then RouteResult.normalize
      else
        let key := compositeKey t m.subtype
        if key ∈ handlers then RouteResult.dispatched key
        else RouteResult.unknownDropped key

/-- One observable step of the reconnect loop in `SlackWS.read`. -/
inductive ReadEv where
  | connectAttempt
  | sleep (n : Nat)
  deriving Repr, DecidableEq

/-- The reconnect loop of `SlackWS.read`
(`while not await self.connect(): ...; await asyncio.sleep(300)`), driven
by the sequence of `connect()` outcomes (`true` = python `True`,
`false` = python `None` after a failed/ logged authentication).  The result
is the trace of attempts and waits; `none` means the supplied outcomes were
exhausted with the loop still running. -/
def reconnectTrace : List Bool → Option (List ReadEv)
  | [] => none
  | true :: _ => some [ReadEv.connectAttempt]
  | false :: rest =>
    (reconnectTrace rest).map
      (fun t => ReadEv.connectAttempt :: ReadEv.sleep 300 :: t)

/-- The serialized heartbeat probe (`{id, type:'ping', time}`). -/
structure PingMsg where
  id : Nat
  type : String
  time : Nat
  deriving Repr, DecidableEq

/-- Observable actions of one `do_ping` firing: the attempted `_send` of the
probe (with whether the transport write raised), and the
`loop.call_later(4, self.start_ping)` rescheduling. -/
inductive PingEv where
  | sendAttempt (m : PingMsg) (ok : Bool)
  | rescheduleAfter (n : Nat)
  deriving Repr, DecidableEq

/-- Model of `SlackWS.do_ping`: bump the ping counter, build the probe from the new
counter value and the current timestamp, `await self._send(msg)`, and only
after that line returns does `call_later(4, ...)` run — a raising send
(`sendOk = false`) aborts the coroutine before the reschedule. -/
def do_ping (s : SlackState) (now : Nat) (sendOk : Bool) : SlackState × List PingEv :=
  let pid := s.internal_pingid + 1
  let s₁ := { s with internal_pingid := pid }
  let probe : PingMsg := { id := pid, type := "ping", time := now }
  if sendOk then
    (s₁, [PingEv.sendAttempt probe true, PingEv.rescheduleAfter 4])
  else
    (s₁, [PingEv.sendAttempt probe false])

/-- One operation of a process lifetime, for the sequence-counter claim:
an outbound `say` or a (re)`connect`. -/
inductive Op where
  | doSay (text dest : String)
  | doConnect (resp : Option ConnectInfo)

/-- Run a lifetime's worth of operations, collecting every envelope that
reached the transport write in `say`. -/
def runOps (backend : String → DmResponse) (s : SlackState) :
    List Op → SlackState × List OutboundMsg
  | [] => (s, [])
  | Op.doSay text dest :: rest =>
    let r := say backend s text dest
    let rec' := runOps backend r.2 rest
    match r.1 with
    | SayStep.sent m => (rec'.1, m :: rec'.2)
    | _ => (rec'.1, rec'.2)
  | Op.doConnect resp :: rest => runOps backend (connect s resp).2 rest

/-- A DM-open backend that always opens channel `D1`. -/
def dmBackendD1 : String → DmResponse := fun _ => { ok := true, channel_id := "D1" }

/-- Cached user record for the rename scenario: `U1` named `alice`. -/
def c1Alice : UserRecord :=
  { id := "U1", name := "alice", nick := some "alice", presence := none,
    is_bot := some false, deleted := some false, extra := [] }

/-- Incoming `user_change` record: `U1` renamed to `bob`. -/
def c1Bob : UserRecord :=
  { id := "U1", name := "bob", nick := some "bob", presence := none,
    is_bot := some false, deleted := some false, extra := [] }

/-- Cache holding `U1` under the name `alice` before the rename event. -/
def c1State : SlackState :=
  { initState with
      user_map := [("U1", c1Alice)]
      user_nick_to_id := [("alice", "U1")] }

/-- A cached record for the presence-change scenario. -/
def c2Rec : UserRecord :=
  { id := "U2", name := "carla", nick := none, presence := some "active",
    is_bot := some false, deleted := some false, extra := [("tz", "utc")] }

/-- Cache holding exactly the user `U2`. -/
def c2Known : SlackState := { initState with user_map := [("U2", c2Rec)] }

/-- A bot record reachable under the nickname `x#y`. -/
def c3Bot : UserRecord :=
  { id := "U9", name := "x#y", nick := none, presence := none,
    is_bot := some true, deleted := some false, extra := [] }

/-- Cache resolving the nickname `x#y` (which contains `#`) to the bot `U9`. -/
def c3State : SlackState :=
  { initState with
      user_map := [("U9", c3Bot)]
      user_nick_to_id := [("x#y", "U9")] }

/-- A deleted-account record for the drop-check scenario. -/
def c3aRec : UserRecord :=
  { id := "U3", name := "carol", nick := none, presence := none,
    is_bot := some false, deleted := some true, extra := [] }

/-- Cache resolving the plain nickname `carol` to the deleted account `U3`. -/
def c3aState : SlackState :=
  { initState with
      user_map := [("U3", c3aRec)]
      user_nick_to_id := [("carol", "U3")] }

/-- A session-start response in which the backend reports failure. -/
def c6Info : ConnectInfo :=
  { ok := some false, error := some "invalid_auth", url := none, selfInfo := none,
    users := [], ims := [], channels := [], groups := [] }

/-- A bot record reachable under the nickname `a#b`. -/
def c10Bot : UserRecord :=
  { id := "U7", name := "a#b", nick := none, presence := none,
    is_bot := some true, deleted := some true, extra := [] }

/-- Cache resolving the nickname `a#b` (hash not in first position) to `U7`. -/
def c10State : SlackState :=
  { initState with
      user_map := [("U7", c10Bot)]
      user_nick_to_id := [("a#b", "U7")] }

/-- An ordinary (non-bot, non-deleted) record for the sequence scenario. -/
def c8Rec : UserRecord :=
  { id := "U8", name := "dave", nick := none, presence := none,
    is_bot := some false, deleted := some false, extra := [] }

/-- Cache resolving the plain nickname `dave` to the ordinary user `U8`. -/
def c8State : SlackState :=
  { initState with
      user_map := [("U8", c8Rec)]
      user_nick_to_id := [("dave", "U8")] }

/-- Two sends with a failed reconnect in between. -/
def c8Ops : List Op :=
  [Op.doSay "one" "dave", Op.doConnect none, Op.doSay "two" "dave"]

/-! ## Association-list and string lemmas -/

@[simp] theorem getKey_setKey_self (m : List (String × α)) (k : String) (v : α) :
    getKey (setKey m k v) k = some v := by
  induction m with
  | nil => simp [getKey, setKey]
  | cons hd tl ih =>
    obtain ⟨k', v'⟩ := hd
    by_cases h : k' = k <;> simp [getKey, setKey, h, ih]

theorem getKey_setKey_ne (m : List (String × α)) {k k' : String} (v : α) (h : k' ≠ k) :
    getKey (setKey m k' v) k = getKey m k := by
  induction m with
  | nil => simp [getKey, setKey, h]
  | cons hd tl ih =>
    obtain ⟨k₀, v₀⟩ := hd
    by_cases h₀ : k₀ = k'
    · subst h₀
      simp [getKey, setKey, h]
    · simp [getKey, setKey, h₀, ih]

theorem strStartsWithHash_of_contains {s : String} (h : strContainsHash s = false) :
    strStartsWithHash s = false := by
  unfold strContainsHash at h
  unfold strStartsWithHash
  cases hd : s.data with
  | nil => rfl
  | cons c rest =>
    rw [hd] at h
    simp at h
    simp
    exact fun hc => h.1 hc.symm

/-! ## C1: user rename and the nick index -/

/-- Handler `on_user_change` always succeeds and returns the state with only
`user_map` upserted: because the record is written before the `old_nick`
read, `old_nick` can only ever be the *new* record's nick, so the
name-index swap branch is unreachable. -/
theorem on_user_change_eq (s : SlackState) (u : UserRecord) :
    on_user_change s u = some { s with user_map := setKey s.user_map u.id u } := by
  unfold on_user_change
  simp only [getKey_setKey_self]
  cases h : u.nick <;> simp [h]

/-- C1: the claim says a `user_change` carrying a different name removes the
old name from the name-to-id index and inserts the new one.  The code does
not: starting from `U1` cached under `alice` and applying a record renaming
it to `bob`, the record is upserted but the index still resolves `alice`
(which should have been removed) and does not resolve `bob` at all. -/
theorem user_change_rename_keeps_stale_index :
    (on_user_change c1State c1Bob).map
        (fun s => (getKey s.user_map "U1",
                   getKey s.user_nick_to_id "alice",
                   getKey s.user_nick_to_id "bob")) =
      some (some c1Bob, some "U1", none) := by
  decide

/-! ## C2: presence change for unknown and known ids -/

/-- C2 counterexample: the claim says a `presence_change` for an id missing
from the user cache only logs and does not raise; in the code the bare
`self.user_map[msg['user']]` access raises `KeyError` (modelled as `none`),
which propagates out of `read`'s dispatch. -/
theorem presence_change_unknown_id_raises :
    on_presence_change initState "U1" "away" = none := by
  decide

/-- C2 (amended): a `presence_change` for an unknown id raises a `KeyError`
out of the handler (it is not absorbed); for a known id it rewrites exactly
the `presence` field of that user's record in place, leaving every other
field and every other record unchanged. -/
theorem presence_change_spec (s : SlackState) (u p : String) :
    (getKey s.user_map u = none → on_presence_change s u p = none) ∧
    (∀ r, getKey s.user_map u = some r →
      on_presence_change s u p =
        some { s with user_map := setKey s.user_map u { r with presence := some p } }) ∧
    (∀ r, getKey s.user_map u = some r → ∀ k, k ≠ u →
      getKey ((on_presence_change s u p).getD s).user_map k = getKey s.user_map k) := by
  refine ⟨fun h => by simp [on_presence_change, h],
          fun r h => by simp [on_presence_change, h],
          fun r h k hk => ?_⟩
  simp [on_presence_change, h]
  exact getKey_setKey_ne _ _ (fun e => hk e.symm)

/-- Witness for the amended C2 at a concrete cached user. -/
theorem presence_change_spec_witness :
    on_presence_change c2Known "U2" "away" =
      some { c2Known with
               user_map := setKey c2Known.user_map "U2" { c2Rec with presence := some "away" } } :=
  (presence_change_spec c2Known "U2" "away").2.1 c2Rec (by decide)

/-! ## C3 and C10: the bot/deleted drop in `say` and its `#` bypass -/

/-- C3 counterexample: the claim says *every* destination resolved through
the user name-to-id index to a bot record is dropped before the transport
write.  The nickname `x#y` resolves through the user index to the bot `U9`,
yet `say` performs the write (both rejection checks are guarded by
`'#' not in destination`). -/
theorem say_bot_with_hash_is_sent :
    (getKey c3State.user_map "U9").map (fun r => r.is_bot) = some (some true) ∧
    getKey c3State.user_nick_to_id "x#y" = some "U9" ∧
    (say dmBackendD1 c3State "hi" "x#y").1 =
      SayStep.sent { id := 1, channel := some "D1", text := "hi" } := by
  decide

/-- C3 (amended): for a destination that does not contain the channel
marker `#` anywhere and resolves through the user name-to-id index to a
record whose `deleted` flag is true, or whose `deleted` flag is false and
`is_bot` flag is true, `say` drops the message silently: no transport
write, and the state (in particular the outbound sequence counter and the
DM cache) is completely unchanged. -/
theorem say_drops_bot_or_deleted (backend : String → DmResponse) (s : SlackState)
    (t d uid : String) (r : UserRecord)
    (hhash : strContainsHash d = false)
    (hu : getKey s.user_nick_to_id d = some uid)
    (hr : getKey s.user_map uid = some r)
    (hflag : r.deleted = some true ∨ (r.deleted = some false ∧ r.is_bot = some true)) :
    say backend s t d = (SayStep.droppedBot, s) := by
  have h₁ : strStartsWithHash d = false := strStartsWithHash_of_contains hhash
  rcases hflag with h | ⟨hdel, hbot⟩
  · simp [say, h₁, hhash, hu, hr, h]
  · simp [say, h₁, hhash, hu, hr, hdel, hbot]

/-- Witness for the amended C3: a deleted account under a plain nickname. -/
theorem say_drops_bot_or_deleted_witness :
    say dmBackendD1 c3aState "hi" "carol" = (SayStep.droppedBot, c3aState) :=
  say_drops_bot_or_deleted dmBackendD1 c3aState "hi" "carol" "U3" c3aRec
    (by decide) (by decide) (by decide) (Or.inl (by decide))

/-- C10: when the destination contains `#` at a position other than the
first character (so it is still resolved through the user name-to-id
index), both the deleted-account and the bot-account checks are skipped —
`user_map` is not even read — and the envelope is written to the transport
with the next sequence id, whatever the resolved user's flags are. -/
theorem say_hash_destination_bypasses_checks (backend : String → DmResponse)
    (s : SlackState) (t d uid : String)
    (h₀ : strStartsWithHash d = false)
    (h₁ : strContainsHash d = true)
    (hu : getKey s.user_nick_to_id d = some uid) :
    say backend s t d =
      (SayStep.sent { id := s.internal_msgid + 1,
                      channel := (get_dm_id_by_user backend s.dm_cache uid).channel,
                      text := t },
       { s with internal_msgid := s.internal_msgid + 1,
                dm_cache := (get_dm_id_by_user backend s.dm_cache uid).cache }) := by
  simp [say, h₀, h₁, hu]

/-- Witness for C10: the bot-and-deleted account `U7` behind nickname
`a#b` still gets the message written to the transport. -/
theorem say_hash_destination_bypasses_checks_witness :
    say dmBackendD1 c10State "yo" "a#b" =
      (SayStep.sent { id := 1, channel := some "D1", text := "yo" },
       { c10State with internal_msgid := 1, dm_cache := [("U7", some "D1")] }) :=
  say_hash_destination_bypasses_checks dmBackendD1 c10State "yo" "a#b" "U7"
    (by decide) (by decide) (by decide)

/-! ## C4: the routing case analysis of `read` -/

/-- C4: `read` routes every decoded envelope by exactly this case analysis:
a correlation id (`reply_to`) with no type tag is discarded; no type tag at
all is logged and discarded; `type:"message"` with no subtype goes to
message normalization; any other envelope is dispatched under the composite
key `type` (or `type_subtype` when a subtype is present), and a composite
key with no registered handler is logged and dropped without raising. -/
theorem read_route_cases (handlers : List String) (m : Envelope) :
    (m.reply_to.isSome = true → m.type = none →
      route handlers m = RouteResult.ackDiscard) ∧
    (m.reply_to = none → m.type = none →
      route handlers m = RouteResult.malformedDiscard) ∧
    (m.type = some "message" → m.subtype = none →
      route handlers m = RouteResult.normalize) ∧
    (∀ t, m.type = some t → (t = "message" → m.subtype.isSome = true) →
      (compositeKey t m.subtype ∈ handlers →
        route handlers m = RouteResult.dispatched (compositeKey t m.subtype)) ∧
      (compositeKey t m.subtype ∉ handlers →
        route handlers m = RouteResult.unknownDropped (compositeKey t m.subtype))) := by
  refine ⟨fun h₁ h₂ => by simp [route, h₁, h₂],
          fun h₁ h₂ => by simp [route, h₁, h₂],
          fun h₁ h₂ => by simp [route, h₁, h₂],
          fun t ht hsub => ⟨fun hmem => ?_, fun hmem => ?_⟩⟩
  · by_cases hm : t = "message"
    · subst hm
      obtain ⟨a, ha⟩ := Option.isSome_iff_exists.mp (hsub rfl)
      rw [ha] at hmem
      simp [route, ht, ha, hmem]
    · simp [route, ht, hm, hmem]
  · by_cases hm : t = "message"
    · subst hm
      obtain ⟨a, ha⟩ := Option.isSome_iff_exists.mp (hsub rfl)
      rw [ha] at hmem
      simp [route, ht, ha, hmem]
    · simp [route, ht, hm, hmem]

/-- Witness for C4, one concrete envelope per routing case: an ack, a
typeless envelope, a plain message, a subtyped message dispatched to the
registered `message_changed` handler, and an unknown event dropped. -/
theorem read_route_cases_witness :
    route ["message_message_changed"]
        { reply_to := some 1, type := none, subtype := none } = RouteResult.ackDiscard ∧
    route ["message_message_changed"]
        { reply_to := none, type := none, subtype := none } = RouteResult.malformedDiscard ∧
    route ["message_message_changed"]
        { reply_to := none, type := some "message", subtype := none } = RouteResult.normalize ∧
    route ["message_message_changed"]
        { reply_to := none, type := some "message", subtype := some "message_changed" } =
      RouteResult.dispatched "message_message_changed" ∧
    route ["message_message_changed"]
        { reply_to := none, type := some "team_join", subtype := none } =
      RouteResult.unknownDropped "team_join" :=
  ⟨(read_route_cases _ _).1 (by decide) rfl,
   (read_route_cases _ _).2.1 rfl rfl,
   (read_route_cases _ _).2.2.1 rfl rfl,
   ((read_route_cases _ _).2.2.2 "message" rfl (fun _ => by decide)).1 (by decide),
   ((read_route_cases _ _).2.2.2 "team_join" rfl (fun h => by simp at h)).2 (by decide)⟩

/-! ## C5: the reconnect loop of `read` -/

/-- C5: driven by any number `n` of failed `connect()` outcomes, the
reconnect loop is still running after `n` failures (it never gives up on
its own), and with a success after `n` failures it performs exactly `n + 1`
connect attempts with a fixed 300-unit sleep between consecutive attempts,
exiting right at the successful attempt so that reading can resume. -/
theorem reconnect_loop_fixed_interval (n : Nat) :
    reconnectTrace (List.replicate n false) = none ∧
    reconnectTrace (List.replicate n false ++ [true]) =
      some ((List.replicate n [ReadEv.connectAttempt, ReadEv.sleep 300]).flatten ++
            [ReadEv.connectAttempt]) := by
  induction n with
  | zero => simp [reconnectTrace]
  | succ k ih =>
    refine ⟨?_, ?_⟩
    · simp [List.replicate_succ, reconnectTrace, ih.1]
    · simp [List.replicate_succ, reconnectTrace, ih.2]

/-- Witness for C5 at one failure followed by a success. -/
theorem reconnect_loop_fixed_interval_witness :
    reconnectTrace [false, true] =
      some [ReadEv.connectAttempt, ReadEv.sleep 300, ReadEv.connectAttempt] :=
  (reconnect_loop_fixed_interval 1).2

/-! ## C6: authentication failure reporting -/

/-- C6: when the session-start response reports failure (`ok` false),
`authenticate` raises carrying the backend's reported reason, or the
default unknown-error reason when the response has no `error` field; on a
response whose `ok` is not false it returns the streaming url of the
response (after seeding the caches from the payload). -/
theorem authenticate_error_reason (s : SlackState) (info : ConnectInfo) :
    (info.ok = some false → info.error = none →
      authenticate s info = Except.error "Slack Error: Unknown Error") ∧
    (∀ e, info.ok = some false → info.error = some e →
      authenticate s info = Except.error ("Slack Error: " ++ e)) ∧
    (info.ok.getD true = true →
      authenticate s info = Except.ok (info.url, process_connect_info s info)) := by
  refine ⟨fun h₁ h₂ => by simp [authenticate, h₁, h₂],
          fun e h₁ h₂ => by simp [authenticate, h₁, h₂],
          fun h => by simp [authenticate, h]⟩

/-- Witness for C6: a backend-reported failure with reason
`invalid_auth` surfaces as `Slack Error: invalid_auth`. -/
theorem authenticate_error_reason_witness :
    authenticate initState c6Info = Except.error "Slack Error: invalid_auth" :=
  (authenticate_error_reason initState c6Info).2.1 "invalid_auth" rfl rfl

/-! ## C9: the heartbeat firing -/

/-- C9 counterexample: the claim says the scheduler reschedules after 4
time units regardless of whether the send succeeded; but
`loop.call_later(4, ...)` stands *after* `await self._send(msg)`, so a
raising send skips the reschedule: with a failed send the firing emits no
`rescheduleAfter` action. -/
theorem do_ping_failed_send_skips_reschedule :
    (do_ping initState 1000 false).2 =
      [PingEv.sendAttempt { id := 1, type := "ping", time := 1000 } false] ∧
    PingEv.rescheduleAfter 4 ∉ (do_ping initState 1000 false).2 := by
  decide

/-- C9 (amended): each firing bumps the heartbeat counter (which is
separate from the outbound message counter: `internal_msgid` is untouched)
and attempts to send a probe carrying the new heartbeat sequence id and the
current timestamp; the 4-unit reschedule happens exactly when the send
completed without raising. -/
theorem do_ping_spec (s : SlackState) (now : Nat) (sendOk : Bool) :
    (do_ping s now sendOk).1.internal_pingid = s.internal_pingid + 1 ∧
    (do_ping s now sendOk).1.internal_msgid = s.internal_msgid ∧
    (do_ping s now sendOk).2.head? =
      some (PingEv.sendAttempt
        { id := s.internal_pingid + 1, type := "ping", time := now } sendOk) ∧
    (PingEv.rescheduleAfter 4 ∈ (do_ping s now sendOk).2 ↔ sendOk = true) := by
  cases sendOk <;> simp [do_ping]

/-- Witness for the amended C9 at a concrete successful firing. -/
theorem do_ping_spec_witness :
    (do_ping initState 77 true).1.internal_pingid = initState.internal_pingid + 1 ∧
    (do_ping initState 77 true).1.internal_msgid = initState.internal_msgid ∧
    (do_ping initState 77 true).2.head? =
      some (PingEv.sendAttempt
        { id := initState.internal_pingid + 1, type := "ping", time := 77 } true) ∧
    (PingEv.rescheduleAfter 4 ∈ (do_ping initState 77 true).2 ↔ true = true) :=
  do_ping_spec initState 77 true

/-! ## C7: DM resolver memoization -/

/-- C7: resolving the same uncached user id twice issues exactly one
backend `im.open` call in total, both calls return the same DM channel
value, and no previously cached mapping is invalidated by either call. -/
theorem dm_resolver_single_flight (backend : String → DmResponse)
    (cache : List (String × Option String)) (u : String)
    (h : getKey cache u = none) :
    (get_dm_id_by_user backend cache u).backendCalls +
      (get_dm_id_by_user backend (get_dm_id_by_user backend cache u).cache u).backendCalls
      = 1 ∧
    (get_dm_id_by_user backend (get_dm_id_by_user backend cache u).cache u).channel =
      (get_dm_id_by_user backend cache u).channel ∧
    (∀ k v, getKey cache k = some v →
      getKey (get_dm_id_by_user backend
        (get_dm_id_by_user backend cache u).cache u).cache k = some v) := by
  refine ⟨?_, ?_, ?_⟩ <;> simp [get_dm_id_by_user, h, getKey_setKey_self]
  intro k v hk
  have hku : u ≠ k := by
    intro e
    rw [← e, h] at hk
    cases hk
  rw [getKey_setKey_ne _ _ hku]
  exact hk

/-- Witness for C7: the user `U5`, uncached, against a backend that opens
`D1`: one backend call in total, equal results, nothing invalidated. -/
theorem dm_resolver_single_flight_witness :
    (get_dm_id_by_user dmBackendD1 [] "U5").backendCalls +
      (get_dm_id_by_user dmBackendD1 (get_dm_id_by_user dmBackendD1 [] "U5").cache
        "U5").backendCalls = 1 ∧
    (get_dm_id_by_user dmBackendD1 (get_dm_id_by_user dmBackendD1 [] "U5").cache
      "U5").channel = (get_dm_id_by_user dmBackendD1 [] "U5").channel ∧
    (∀ k v, getKey ([] : List (String × Option String)) k = some v →
      getKey (get_dm_id_by_user dmBackendD1
        (get_dm_id_by_user dmBackendD1 [] "U5").cache "U5").cache k = some v) :=
  dm_resolver_single_flight dmBackendD1 [] "U5" rfl

/-! ## C8: outbound sequence ids across a process lifetime -/

theorem foldl_msgid {β : Type} (f : SlackState → β → SlackState)
    (hf : ∀ s b, (f s b).internal_msgid = s.internal_msgid) :
    ∀ (l : List β) (s : SlackState), (l.foldl f s).internal_msgid = s.internal_msgid := by
  intro l
  induction l with
  | nil => intro s; rfl
  | cons b rest ih => intro s; rw [List.foldl_cons, ih, hf]

theorem process_connect_info_msgid (s : SlackState) (info : ConnectInfo) :
    (process_connect_info s info).internal_msgid = s.internal_msgid := by
  unfold process_connect_info
  split
  · rfl
  · dsimp only
    rw [foldl_msgid, foldl_msgid, foldl_msgid, foldl_msgid]
    · split <;> rfl
    all_goals exact fun _ _ => rfl

/-- A (re)`connect` never touches the outbound sequence counter. -/
theorem connect_msgid (s : SlackState) (resp : Option ConnectInfo) :
    (connect s resp).2.internal_msgid = s.internal_msgid := by
  cases resp with
  | none => rfl
  | some info =>
    by_cases h : (info.ok.getD true) = false
    · simp [connect, authenticate, h]
    · simp [connect, authenticate, h, process_connect_info_msgid]

/-- Every `say` call either performs the transport write with id exactly
one above the current counter (and bumps the counter to that id), or ends
without a write and leaves the state untouched. -/
theorem say_msgid_cases (backend : String → DmResponse) (s : SlackState) (t d : String) :
    (∃ m, (say backend s t d).1 = SayStep.sent m ∧
       m.id = s.internal_msgid + 1 ∧
       (say backend s t d).2.internal_msgid = s.internal_msgid + 1) ∨
    ((say backend s t d).2 = s ∧ ∀ m, (say backend s t d).1 ≠ SayStep.sent m) := by
  unfold say
  repeat' split
  all_goals
    first
      | (left; exact ⟨_, rfl, rfl, rfl⟩)
      | (right; exact ⟨rfl, by simp⟩)

/-- Main induction for C8: the sent envelopes' ids are the consecutive
integers above the starting counter, and the final counter is the starting
counter plus the number of sends. -/
theorem runOps_ids (backend : String → DmResponse) (s : SlackState) (ops : List Op) :
    ((runOps backend s ops).2.map (fun m => m.id) =
      List.range' (s.internal_msgid + 1) (runOps backend s ops).2.length) ∧
    (runOps backend s ops).1.internal_msgid =
      s.internal_msgid + (runOps backend s ops).2.length := by
  induction ops generalizing s with
  | nil => simp [runOps]
  | cons op rest ih =>
    cases op with
    | doConnect resp =>
      have h := ih (connect s resp).2
      rw [connect_msgid] at h
      simpa [runOps] using h
    | doSay text dest =>
      rcases say_msgid_cases backend s text dest with ⟨m, hm, hid, hs⟩ | ⟨hs, hns⟩
      · have h := ih (say backend s text dest).2
        rw [hs] at h
        simp only [runOps, hm]
        refine ⟨?_, ?_⟩
        · simp only [List.map_cons, List.length_cons, h.1, hid]
          rfl
        · rw [h.2]
          simp only [List.length_cons]
          omega
      · cases hstep : (say backend s text dest).1 with
        | sent m => exact absurd hstep (hns m)
        | droppedBot =>
          have h := ih s
          simp only [runOps, hstep, hs]
          exact h
        | keyError =>
          have h := ih s
          simp only [runOps, hstep, hs]
          exact h

/-- C8: over any interleaving of `say` calls and reconnects in one process
lifetime, the sequence ids of the envelopes that reached the transport are
exactly the consecutive integers starting one above the initial counter —
in particular strictly increasing and unique, one increment per actual
send — and the final counter is the initial counter plus the number of
sends: reconnects never reset it. -/
theorem say_sequence_ids (backend : String → DmResponse) (s : SlackState) (ops : List Op) :
    ((runOps backend s ops).2.map (fun m => m.id) =
      List.range' (s.internal_msgid + 1) (runOps backend s ops).2.length) ∧
    ((runOps backend s ops).2.map (fun m => m.id)).Pairwise (· < ·) ∧
    (runOps backend s ops).1.internal_msgid =
      s.internal_msgid + (runOps backend s ops).2.length :=
  ⟨(runOps_ids backend s ops).1,
   by rw [(runOps_ids backend s ops).1]; exact List.pairwise_lt_range' _ _,
   (runOps_ids backend s ops).2⟩

/-- Witness for C8: two sends around a failed reconnect get ids 1 and 2
and leave the counter at 2. -/
theorem say_sequence_ids_witness :
    ((runOps dmBackendD1 c8State c8Ops).2.map (fun m => m.id) =
      List.range' (c8State.internal_msgid + 1) (runOps dmBackendD1 c8State c8Ops).2.length) ∧
    ((runOps dmBackendD1 c8State c8Ops).2.map (fun m => m.id)).Pairwise (· < ·) ∧
    (runOps dmBackendD1 c8State c8Ops).1.internal_msgid =
      c8State.internal_msgid + (runOps dmBackendD1 c8State c8Ops).2.length :=
  say_sequence_ids dmBackendD1 c8State c8Ops

end SlackWS
